import Mathlib

/-!
Verification development for the Tracker repository's telemetry delivery
engine.  The definitions below are shallow embeddings of:

* `src/src/sender/beaconSender.js` (class `BeaconSender`): the batch queue,
  in-flight flag, retry/backoff logic and the offline queue;
* `src/src/core/errorMonitor.js` (`ErrorMonitor.handleError`): the dedup
  cache;
* the utils module (`shouldSample`, class `Cache`);
* `src/packages/core/src/beaconSender.js` (`createBeaconSender`): the
  bounded pending-event cache.

Records are modelled as natural numbers (their payload content is opaque to
the delivery logic).  JavaScript promise settlement is modelled by explicit
settle events acting on a list of in-flight sends; the browser event loop is
single-threaded, so each synchronous code run (a method body up to its first
await, or a then/catch handler) is one atomic step.
-/

namespace Tracker

/-- Configuration relevant to `BeaconSender` (`config.beacon` in
`src/config.js`): `batchSize`, `delay` (base timer delay, ms), `retryCount`
(the retry budget, called maxRetries in the spec), the hard-coded
`maxOfflineQueueSize` instance field, and whether `config.beacon.url` is a
non-empty string. -/
structure Config where
  batchSize : Nat
  delay : Nat
  retryCount : Nat
  maxOffline : Nat
  urlOk : Bool
deriving DecidableEq, Repr

/-- One in-flight `send(data)` promise: the captured `data` closure variable,
whether the promise was already rejected during the synchronous prefix of
`send` (missing URL or device offline), and whether it was created by
`flush()` (which attaches both then and catch handlers) or by
`sendOfflineQueue()` (catch handler only). -/
structure Flight where
  data : List Nat
  forcedFail : Bool
  isFlush : Bool
deriving DecidableEq, Repr

/-- Mutable state of a `BeaconSender` instance: `queue`, `sending`,
`retryCount`, `offlineQueue`, the pending `send` promises, and the armed
timer delay (`this.timer`; we record the delay it was armed with). -/
structure Sender where
  queue : List Nat
  sending : Bool
  retryCount : Nat
  offlineQueue : List Nat
  flights : List Flight
  timer : Option Nat
deriving DecidableEq, Repr

/-- The last `n` elements of a list: `l.drop (l.length - n)`. -/
def lastN (n : Nat) (l : List α) : List α := l.drop (l.length - n)

/-- JavaScript `arr.slice(-n)`.  For `n = 0` this is `arr.slice(0)`, the
whole array (`-0 === 0`); otherwise the last `n` elements. -/
def jsSliceNeg (l : List α) (n : Nat) : List α :=
  if n = 0 then l else lastN n l

/-- `BeaconSender.addToOfflineQueue(data)`: append `data`, and if the length
now exceeds `maxOfflineQueueSize`, keep only `slice(-maxOfflineQueueSize)`.
The `saveOfflineQueue` localStorage write is an external side effect with no
influence on sender state and is elided. -/
def addToOfflineQueue (cfg : Config) (data : List Nat) (s : Sender) : Sender :=
  let oq := s.offlineQueue ++ data
  let oq := if cfg.maxOffline < oq.length then jsSliceNeg oq cfg.maxOffline else oq
  { s with offlineQueue := oq }

/-- Sender state right after the constructor and `init()` (empty queues,
`restoreOfflineQueue` finding nothing in storage, `startTimer()` arming the
default-delay timer). -/
def initSender (cfg : Config) : Sender :=
  { queue := [], sending := false, retryCount := 0, offlineQueue := [],
    flights := [], timer := some cfg.delay }

/-- The synchronous part of `BeaconSender.flush()` together with the
synchronous prefix of the `send(data)` call it makes: early return on empty
queue or `sending`; otherwise set `sending`, stop the timer, snapshot and
clear the queue, then run `send`'s synchronous prefix — missing URL rejects
at once; a device known offline adds `data` to the offline queue and rejects
at once; otherwise the transport attempt is left in flight with its outcome
open. -/
def flushStart (cfg : Config) (online : Bool) (s : Sender) : Sender :=
  if s.queue = [] then s
  else if s.sending then s
  else
    let data := s.queue
    let s1 : Sender := { s with sending := true, timer := none, queue := [] }
    if cfg.urlOk = false then
      { s1 with flights := s1.flights ++ [⟨data, true, true⟩] }
    else if online = false then
      let s2 := addToOfflineQueue cfg data s1
      { s2 with flights := s2.flights ++ [⟨data, true, true⟩] }
    else
      { s1 with flights := s1.flights ++ [⟨data, false, true⟩] }

/-- The then/catch handlers attached by `flush()` to `send(data)`.  Success:
reset `retryCount`, restart the default timer, clear `sending`.  Failure:
increment `retryCount`; while it is still below the configured budget,
re-queue `data` in front of the current queue and arm the backoff timer
`min(delay * 2^retryCount, 60000)`; otherwise move `data` to the offline
queue, reset `retryCount`, restart the default timer.  Either way clear
`sending` last. -/
def flushHandler (cfg : Config) (data : List Nat) (ok : Bool) (s : Sender) : Sender :=
  if ok then
    { s with retryCount := 0, timer := some cfg.delay, sending := false }
  else
    let rc := s.retryCount + 1
    if rc < cfg.retryCount then
      { s with retryCount := rc, queue := data ++ s.queue,
               timer := some (min (cfg.delay * 2 ^ rc) 60000), sending := false }
    else
      let s1 := addToOfflineQueue cfg data s
      { s1 with retryCount := 0, timer := some cfg.delay, sending := false }

/-- Extract the first flight satisfying `p`, returning it and the remaining
flights in order. -/
def takeFlight (p : Flight → Bool) : List Flight → Option (Flight × List Flight)
  | [] => none
  | f :: fs =>
    if p f then some (f, fs)
    else match takeFlight p fs with
      | some (g, rest) => some (g, f :: rest)
      | none => none

/-- Settlement of a flush-originated `send` promise.  A promise that was
already rejected in `send`'s synchronous prefix can only settle as a
failure, which the `ok && !forcedFail` masking enforces. -/
def flushSettle (cfg : Config) (ok : Bool) (s : Sender) : Sender :=
  match takeFlight (fun f => f.isFlush) s.flights with
  | none => s
  | some (f, rest) => flushHandler cfg f.data (ok && !f.forcedFail) { s with flights := rest }

/-- The synchronous part of `BeaconSender.sendOfflineQueue()` with the
synchronous prefix of its `send(data)` call: early return on an empty
offline queue or a device offline; otherwise snapshot and clear the offline
queue (and its localStorage copy) and start a send.  Note: no check of, and
no write to, `this.sending`. -/
def drainStart (cfg : Config) (online : Bool) (s : Sender) : Sender :=
  if s.offlineQueue = [] then s
  else if online = false then s
  else
    let data := s.offlineQueue
    let s1 : Sender := { s with offlineQueue := [] }
    if cfg.urlOk = false then
      { s1 with flights := s1.flights ++ [⟨data, true, false⟩] }
    else
      { s1 with flights := s1.flights ++ [⟨data, false, false⟩] }

/-- Settlement of a drain-originated `send` promise: `sendOfflineQueue`
attaches only a catch handler, which puts `data` back into the offline
queue; success does nothing further. -/
def drainSettle (cfg : Config) (ok : Bool) (s : Sender) : Sender :=
  match takeFlight (fun f => !f.isFlush) s.flights with
  | none => s
  | some (f, rest) =>
    if ok && !f.forcedFail then { s with flights := rest }
    else addToOfflineQueue cfg f.data { s with flights := rest }

/-- `BeaconSender.add(data)`: push onto the queue; if the queue length has
reached `config.beacon.batchSize`, call `flush()` synchronously. -/
def addRecord (cfg : Config) (online : Bool) (r : Nat) (s : Sender) : Sender :=
  let s1 : Sender := { s with queue := s.queue ++ [r] }
  if cfg.batchSize ≤ s1.queue.length then flushStart cfg online s1 else s1

/-- States of one sender reachable from startup under any interleaving of
`add`, `flush`, promise settlements, `sendOfflineQueue`, and timer firings
(each with an arbitrary connectivity environment). -/
inductive Reachable (cfg : Config) : Sender → Prop
  | init : Reachable cfg (initSender cfg)
  | add (online : Bool) (r : Nat) {s : Sender} :
      Reachable cfg s → Reachable cfg (addRecord cfg online r s)
  | flush (online : Bool) {s : Sender} :
      Reachable cfg s → Reachable cfg (flushStart cfg online s)
  | settleFlush (ok : Bool) {s : Sender} :
      Reachable cfg s → Reachable cfg (flushSettle cfg ok s)
  | drain (online : Bool) {s : Sender} :
      Reachable cfg s → Reachable cfg (drainStart cfg online s)
  | settleDrain (ok : Bool) {s : Sender} :
      Reachable cfg s → Reachable cfg (drainSettle cfg ok s)
  | timerFire (online : Bool) {s : Sender} :
      s.timer.isSome = true → Reachable cfg s →
      Reachable cfg (flushStart cfg online { s with timer := none })

/-- One full failed delivery attempt while online with a configured URL: the
flush starts, the transport attempt fails, and the catch handler runs. -/
def failCycle (cfg : Config) (s : Sender) : Sender :=
  flushSettle cfg false (flushStart cfg true s)

/-- The timer delays observed after each of `n` consecutive failed delivery
attempts. -/
def failDelays (cfg : Config) : Nat → Sender → List (Option Nat)
  | 0, _ => []
  | n + 1, s =>
    let s1 := failCycle cfg s
    s1.timer :: failDelays cfg n s1

/-- The sender state after `n` consecutive failed delivery attempts. -/
def iterFail (cfg : Config) : Nat → Sender → Sender
  | 0, s => s
  | n + 1, s => iterFail cfg n (failCycle cfg s)

/-!
Embedding of `ErrorMonitor` from `src/src/core/errorMonitor.js`.  Error
fingerprints are modelled as natural numbers.  We model the dedup path of
`handleError`: the sampling guard `shouldSample(config.sampling.error)` is
deterministically true under the default rate 1.0 (see `shouldSample`
below), `shouldIgnoreError` is false for non-ignored errors, and the
SourceMap branch is off (`isSourceMapSupported` false), so a first
occurrence reports directly.  Timestamps are threaded through `now`; the
rolling `errorCount`/alert decoration changes only the reported payload,
never the emit/suppress decision, and is kept as a counter.
-/

/-- A dedup cache entry: `{ count, firstSeen, lastSeen }`. -/
structure DedupEntry where
  count : Nat
  firstSeen : Nat
  lastSeen : Nat
deriving DecidableEq, Repr

/-- State of an `ErrorMonitor`: the fingerprint-keyed dedup cache (a Map in
insertion order), the rolling error counter, and the log of reports made via
`reportError`, each recorded as (fingerprint, count). -/
structure Monitor where
  errorCache : List (Nat × DedupEntry)
  errorCount : Nat
  reported : List (Nat × Nat)
deriving DecidableEq, Repr

/-- A fresh `ErrorMonitor`. -/
def initMonitor : Monitor := ⟨[], 0, []⟩

/-- `ErrorMonitor.handleError` on an error with fingerprint `fp` at time
`now` (dedup path, see the module comment): a cached fingerprint has its
count incremented and `lastSeen` updated, and is re-reported exactly when
the new count is a multiple of 10; an unseen fingerprint is cached with
count 1, bumps `errorCount`, and is reported with count 1. -/
def handleError (m : Monitor) (now fp : Nat) : Monitor :=
  match (m.errorCache.find? (fun e => e.1 = fp)) with
  | some (_, e) =>
    let e1 : DedupEntry := { e with count := e.count + 1, lastSeen := now }
    let m1 : Monitor :=
      { m with errorCache := m.errorCache.map (fun p => if p.1 = fp then (fp, e1) else p) }
    if e1.count % 10 = 0 then { m1 with reported := m1.reported ++ [(fp, e1.count)] }
    else m1
  | none =>
    let m1 : Monitor :=
      { m with errorCache := m.errorCache ++ [(fp, ⟨1, now, now⟩)],
               errorCount := m.errorCount + 1 }
    { m1 with reported := m1.reported ++ [(fp, 1)] }

/-- `n` repeats of an error with the same fingerprint `fp` (all at time 0),
starting from a fresh monitor. -/
def runRepeats (fp : Nat) : Nat → Monitor
  | 0 => initMonitor
  | n + 1 => handleError (runRepeats fp n) 0 fp

/-- The counts the dedup cache is expected to emit over occurrences
`1, …, n` of one fingerprint: 1 for the first occurrence, then every
multiple of 10. -/
def emittedCounts (n : Nat) : List Nat :=
  ((List.range n).map (fun k => k + 1)).filter (fun k => k == 1 || k % 10 == 0)

/-!
Embedding of the utils module (`src/unnamed/part_003`): `shouldSample` and
the bounded `Cache` class.
-/

/-- `shouldSample(samplingRate)`, with the `Math.random()` draw passed in
explicitly as `rand` (a number in `[0, 1)`): rates at least 1 always admit,
rates at most 0 always reject, otherwise admit iff `rand < samplingRate`.
Pure: the result depends only on its arguments and nothing is mutated. -/
def shouldSample (rand rate : ℚ) : Bool :=
  if 1 ≤ rate then true
  else if rate ≤ 0 then false
  else decide (rand < rate)

/-- The utils `Cache` class: a JavaScript Map (insertion-ordered key/value
entries) plus `maxSize`.  The per-entry expiry timestamp only matters to
`get`, which the modelled send paths never call, and is elided. -/
structure Cache where
  entries : List (Nat × Nat)
  maxSize : Nat
deriving DecidableEq, Repr

/-- `Cache.set(key, value)`: if the map already holds `maxSize` or more
entries, delete the first-inserted key (on an empty map the delete of an
undefined key is a no-op); then `Map.set`, which overwrites in place when
the key exists and appends otherwise. -/
def Cache.set (c : Cache) (k v : Nat) : Cache :=
  let es := if c.maxSize ≤ c.entries.length then c.entries.tail else c.entries
  if es.any (fun e => e.1 = k) then
    ⟨es.map (fun e => if e.1 = k then (k, v) else e), c.maxSize⟩
  else
    ⟨es ++ [(k, v)], c.maxSize⟩

/-- `Cache.size()`. -/
def Cache.size (c : Cache) : Nat := c.entries.length

/-- `Cache.clear()`. -/
def Cache.clear (c : Cache) : Cache := ⟨[], c.maxSize⟩

/-!
Embedding of `createBeaconSender` from `src/packages/core/src/beaconSender.js`.
-/

/-- Configuration for `createBeaconSender`: whether `config.beacon.url` is
set, the batch threshold, and the `debug` flag. -/
structure CoreConfig where
  urlOk : Bool
  batchSize : Nat
  debug : Bool
deriving DecidableEq, Repr

/-- State of a `createBeaconSender` instance: the pending-event `Cache`
(constructed as `new Cache(1000)`), a counter modelling `generateUUID`
freshness (event ids are drawn in increasing order, hence never collide),
the count of missing-URL debug warnings issued, and the batches handed to
the transport by `sendBatch` (the network call itself is fire-and-forget and
otherwise does not touch sender state). -/
structure CoreSender where
  cache : Cache
  nextId : Nat
  warns : Nat
  sentBatches : List (List Nat)
deriving DecidableEq, Repr

/-- A fresh `createBeaconSender` instance. -/
def coreInit : CoreSender := ⟨⟨[], 1000⟩, 0, 0, []⟩

/-- `sendBatch()`: return early when the queue is empty; otherwise collect
the queued values in insertion order, clear the queue, and hand the batch to
the transport. -/
def coreSendBatch (s : CoreSender) : CoreSender :=
  if s.cache.size = 0 then s
  else
    { s with sentBatches := s.sentBatches ++ [s.cache.entries.map (fun e => e.2)],
             cache := s.cache.clear }

/-- `createBeaconSender`'s `send(data)`: with no URL configured it warns
(when `debug`) and returns without queuing or throwing; otherwise the
enriched record is stored under a fresh event id and `sendBatch` runs as
soon as the queue size reaches `batchSize` (otherwise the batch timer is
armed; timer expiry calls the same `sendBatch`).  The `enrichData`
decoration does not affect queue bookkeeping and is elided: the stored value
is the record itself. -/
def coreSend (cfg : CoreConfig) (r : Nat) (s : CoreSender) : CoreSender :=
  if cfg.urlOk = false then
    if cfg.debug then { s with warns := s.warns + 1 } else s
  else
    let id := s.nextId
    let s1 : CoreSender := { s with cache := s.cache.set id r, nextId := id + 1 }
    if cfg.batchSize ≤ s1.cache.size then coreSendBatch s1 else s1

/-! Scenario configurations and concrete traces used to settle the claims. -/

/-- The number of flush-originated sends currently in flight. -/
def flushCount (s : Sender) : Nat := (s.flights.filter (fun f => f.isFlush)).length

/-- Scenario B configuration: `maxRetries = 2`, `baseDelay = 5000`. -/
def cfgA : Config := ⟨10, 5000, 2, 100, true⟩

/-- Configuration with `batchSize = 1` and retry budget 3, URL configured. -/
def cfgB : Config := ⟨1, 5000, 3, 100, true⟩

/-- Configuration with `batchSize = 1` and retry budget 1, URL configured. -/
def cfgC : Config := ⟨1, 5000, 1, 100, true⟩

/-- Configuration with `batchSize = 2`, URL configured. -/
def cfgD : Config := ⟨2, 5000, 3, 100, true⟩

/-- Configuration with no endpoint URL and retry budget 1. -/
def cfgE : Config := ⟨1, 5000, 1, 100, false⟩

/-- Configuration with no endpoint URL and retry budget 3. -/
def cfgE3 : Config := ⟨1, 5000, 3, 100, false⟩

/-- Scenario C configuration: `maxOfflineSize = 5`. -/
def cfgF : Config := ⟨10, 5000, 3, 5, true⟩

/-- Scenario C pushes: records 0…6 pushed one at a time. -/
def pushes7 : List (List Nat) := (List.range 7).map (fun i => [i])

/-- Device offline, one record admitted (triggering a flush at
`batchSize = 1`), then the already-rejected send promise settles. -/
def dupState : Sender :=
  flushSettle cfgB false (addRecord cfgB false 1 (initSender cfgB))

/-- A failed delivery puts record 1 into the offline queue; a new record 2
is admitted (its flush send still in flight) and then `sendOfflineQueue`
runs while that send is in flight. -/
def twoInFlight : Sender :=
  drainStart cfgC true
    (addRecord cfgC true 2
      (flushSettle cfgC false
        (addRecord cfgC true 1 (initSender cfgC))))

/-- A sender with a delivery attempt in flight. -/
def sendingState : Sender := ⟨[3], true, 0, [], [], none⟩

/-- Four records admitted in a row with `batchSize = 2`: the second add
flushes (send left in flight), so the fourth add reaches `batchSize` again
while `sending` is still true. -/
def c7state : Sender :=
  addRecord cfgD true 4
    (addRecord cfgD true 3
      (addRecord cfgD true 2
        (addRecord cfgD true 1 (initSender cfgD))))

/-- A sender mid-trace for the C7 witness. -/
def c7wState : Sender := ⟨[1, 2], false, 0, [], [], some 5000⟩

/-- No URL configured, retry budget 1: one record admitted and its rejected
send settles. -/
def noUrlState : Sender :=
  flushSettle cfgE false (addRecord cfgE true 4 (initSender cfgE))

/-- No URL configured, retry budget 3: one record admitted and its rejected
send settles. -/
def noUrlRetryState : Sender :=
  flushSettle cfgE3 false (addRecord cfgE3 true 4 (initSender cfgE3))

/-! ## Helper lemmas -/

theorem lastN_of_length_le {n : Nat} {l : List α} (h : l.length ≤ n) : lastN n l = l := by
  unfold lastN
  rw [Nat.sub_eq_zero_of_le h, List.drop_zero]

theorem lastN_length_le (n : Nat) (l : List α) : (lastN n l).length ≤ n := by
  unfold lastN
  rw [List.length_drop]
  omega

theorem lastN_append_lastN (n : Nat) (xs ys : List α) :
    lastN n (lastN n xs ++ ys) = lastN n (xs ++ ys) := by
  rcases le_or_lt xs.length n with h | h
  · rw [lastN_of_length_le h]
  · have hz : (lastN n xs).length = n := by
      show (List.drop (xs.length - n) xs).length = n
      rw [List.length_drop]; omega
    show List.drop ((lastN n xs ++ ys).length - n) (lastN n xs ++ ys)
        = List.drop ((xs ++ ys).length - n) (xs ++ ys)
    rw [List.length_append, List.length_append, hz]
    rcases le_or_lt n ys.length with hy | hy
    · have e1 : n + ys.length - n = (lastN n xs).length + (ys.length - n) := by
        rw [hz]; omega
      have e2 : xs.length + ys.length - n = xs.length + (ys.length - n) := by omega
      rw [e1, e2, List.drop_append, List.drop_append]
    · have h1 : n + ys.length - n ≤ (lastN n xs).length := by rw [hz]; omega
      have h2 : xs.length + ys.length - n ≤ xs.length := by omega
      rw [List.drop_append_of_le_length h1, List.drop_append_of_le_length h2]
      show List.drop (n + ys.length - n) (List.drop (xs.length - n) xs) ++ ys = _
      rw [List.drop_drop]
      have e4 : xs.length - n + (n + ys.length - n) = xs.length + ys.length - n := by omega
      rw [e4]

theorem addToOfflineQueue_eq_lastN (cfg : Config) (h : 0 < cfg.maxOffline)
    (d : List Nat) (s : Sender) :
    addToOfflineQueue cfg d s
      = { s with offlineQueue := lastN cfg.maxOffline (s.offlineQueue ++ d) } := by
  simp only [addToOfflineQueue, jsSliceNeg]
  by_cases hlt : cfg.maxOffline < (s.offlineQueue ++ d).length
  · rw [if_pos hlt, if_neg (by omega : ¬ cfg.maxOffline = 0)]
  · rw [if_neg hlt, lastN_of_length_le (by omega)]

theorem offline_foldl (cfg : Config) (h : 0 < cfg.maxOffline) :
    ∀ (pushes : List (List Nat)) (s : Sender),
      s.offlineQueue.length ≤ cfg.maxOffline →
      (pushes.foldl (fun t d => addToOfflineQueue cfg d t) s).offlineQueue
        = lastN cfg.maxOffline (s.offlineQueue ++ pushes.flatten) := by
  intro pushes
  induction pushes with
  | nil =>
    intro s hs
    simp only [List.foldl_nil, List.flatten_nil, List.append_nil]
    exact (lastN_of_length_le hs).symm
  | cons d ps ih =>
    intro s hs
    simp only [List.foldl_cons, List.flatten_cons]
    rw [ih (addToOfflineQueue cfg d s)
        (by rw [addToOfflineQueue_eq_lastN cfg h]; exact lastN_length_le _ _)]
    rw [addToOfflineQueue_eq_lastN cfg h]
    show lastN cfg.maxOffline (lastN cfg.maxOffline (s.offlineQueue ++ d) ++ ps.flatten) = _
    rw [lastN_append_lastN, List.append_assoc]

theorem foldl_inv {σ α : Type} (P : σ → Prop) (f : σ → α → σ)
    (hf : ∀ s a, P s → P (f s a)) :
    ∀ (l : List α) (s : σ), P s → P (l.foldl f s)
  | [], _, hs => hs
  | a :: l, s, hs => foldl_inv P f hf l (f s a) (hf s a hs)

theorem emittedCounts_succ (n : Nat) :
    emittedCounts (n + 1)
      = emittedCounts n ++ (if (n + 1 == 1 || (n + 1) % 10 == 0) then [n + 1] else []) := by
  unfold emittedCounts
  rw [List.range_succ, List.map_append, List.filter_append]
  simp [List.filter_cons]

theorem runRepeats_spec (fp : Nat) : ∀ n : Nat,
    (runRepeats fp (n + 1)).errorCache = [(fp, ⟨n + 1, 0, 0⟩)] ∧
    (runRepeats fp (n + 1)).reported = (emittedCounts (n + 1)).map (fun c => (fp, c)) := by
  intro n
  induction n with
  | zero =>
    constructor
    · rfl
    · show [(fp, 1)] = (emittedCounts 1).map (fun c => (fp, c))
      rfl
  | succ m ih =>
    obtain ⟨hcache, hrep⟩ := ih
    show (handleError (runRepeats fp (m + 1)) 0 fp).errorCache = _ ∧
      (handleError (runRepeats fp (m + 1)) 0 fp).reported = _
    rw [emittedCounts_succ (m + 1), List.map_append]
    unfold handleError
    rw [hcache]
    have hfind : ([(fp, (⟨m + 1, 0, 0⟩ : DedupEntry))].find? (fun e => e.1 = fp))
        = some (fp, ⟨m + 1, 0, 0⟩) := by simp [List.find?]
    rw [hfind]
    simp only [List.map_cons, List.map_nil]
    have hone : ((m + 2 == 1) : Bool) = false := by
      simp [Nat.beq_eq_true_eq]
    by_cases hmod : (m + 1 + 1) % 10 = 0
    · rw [if_pos hmod]
      constructor
      · simp
      · simp only [hrep]
        have : ((m + 1 + 1 == 1 || (m + 1 + 1) % 10 == 0) : Bool) = true := by
          simp [hmod]
        rw [this]
        simp
    · rw [if_neg hmod]
      constructor
      · simp
      · simp only [hrep]
        have : ((m + 1 + 1 == 1 || (m + 1 + 1) % 10 == 0) : Bool) = false := by
          simp [hmod]
        rw [this]
        simp

theorem cacheSet_length_le {c : Cache} (hmax : 0 < c.maxSize)
    (hlen : c.entries.length ≤ c.maxSize) (k v : Nat) :
    (c.set k v).entries.length ≤ c.maxSize := by
  unfold Cache.set
  by_cases hfull : c.maxSize ≤ c.entries.length
  · have heq : c.entries.length = c.maxSize := le_antisymm hlen hfull
    rw [if_pos hfull]
    by_cases hmem : (c.entries.tail.any (fun e => e.1 = k)) = true
    · rw [if_pos hmem]
      simp only [List.length_map, List.length_tail]
      omega
    · rw [if_neg hmem]
      simp only [List.length_append, List.length_tail, List.length_cons,
        List.length_nil]
      omega
  · rw [if_neg hfull]
    by_cases hmem : (c.entries.any (fun e => e.1 = k)) = true
    · rw [if_pos hmem]
      simp only [List.length_map]
      omega
    · rw [if_neg hmem]
      simp only [List.length_append, List.length_cons, List.length_nil]
      omega

theorem cacheSet_maxSize (c : Cache) (k v : Nat) :
    (c.set k v).maxSize = c.maxSize := by
  unfold Cache.set
  by_cases hmem : ((if c.maxSize ≤ c.entries.length then c.entries.tail
      else c.entries).any (fun e => e.1 = k)) = true
  · rw [if_pos hmem]
  · rw [if_neg hmem]

theorem coreSend_cache_bound (cfg : CoreConfig) (s : CoreSender) (r : Nat)
    (h : s.cache.entries.length ≤ s.cache.maxSize ∧ s.cache.maxSize = 1000) :
    (coreSend cfg r s).cache.entries.length ≤ (coreSend cfg r s).cache.maxSize ∧
      (coreSend cfg r s).cache.maxSize = 1000 := by
  obtain ⟨hlen, hmax⟩ := h
  have hm0 : 0 < s.cache.maxSize := by omega
  have h1 : (s.cache.set s.nextId r).entries.length ≤ s.cache.maxSize :=
    cacheSet_length_le hm0 hlen s.nextId r
  have h2 : (s.cache.set s.nextId r).maxSize = s.cache.maxSize :=
    cacheSet_maxSize s.cache s.nextId r
  simp only [coreSend, coreSendBatch]
  split
  · split
    · exact ⟨hlen, hmax⟩
    · exact ⟨hlen, hmax⟩
  · split
    · split
      · exact ⟨by rw [h2]; exact h1, by rw [h2]; exact hmax⟩
      · constructor
        · simp [Cache.clear]
        · simp [Cache.clear, h2, hmax]
    · exact ⟨by rw [h2]; exact h1, by rw [h2]; exact hmax⟩

theorem failCycle_retry (cfg : Config) (hurl : cfg.urlOk = true)
    (data : List Nat) (hdata : data ≠ []) (r : Nat) (hr : r + 1 < cfg.retryCount)
    (oq : List Nat) (t : Option Nat) :
    failCycle cfg ⟨data, false, r, oq, [], t⟩
      = ⟨data, false, r + 1, oq, [], some (min (cfg.delay * 2 ^ (r + 1)) 60000)⟩ := by
  simp [failCycle, flushStart, flushSettle, flushHandler, takeFlight, hurl, hdata, hr]

theorem failCycle_exhaust (cfg : Config) (hurl : cfg.urlOk = true)
    (data : List Nat) (hdata : data ≠ []) (r : Nat) (hr : cfg.retryCount ≤ r + 1)
    (oq : List Nat) (t : Option Nat) (hfit : (oq ++ data).length ≤ cfg.maxOffline) :
    failCycle cfg ⟨data, false, r, oq, [], t⟩
      = ⟨[], false, 0, oq ++ data, [], some cfg.delay⟩ := by
  have hnr : ¬ (r + 1 < cfg.retryCount) := by omega
  have hlt : ¬ (cfg.maxOffline < oq.length + data.length) := by
    rw [List.length_append] at hfit
    omega
  simp [failCycle, flushStart, flushSettle, flushHandler, takeFlight,
    addToOfflineQueue, hurl, hdata, hnr, hlt]

theorem failRun_spec (cfg : Config) (hurl : cfg.urlOk = true)
    (data : List Nat) (hdata : data ≠ []) (hfit : data.length ≤ cfg.maxOffline) :
    ∀ (j r : Nat) (t : Option Nat), 1 ≤ j → r + j = cfg.retryCount →
      iterFail cfg j ⟨data, false, r, [], [], t⟩
          = ⟨[], false, 0, data, [], some cfg.delay⟩ ∧
      failDelays cfg j ⟨data, false, r, [], [], t⟩
          = (List.range (j - 1)).map
              (fun k => some (min (cfg.delay * 2 ^ (r + 1 + k)) 60000))
            ++ [some cfg.delay] := by
  intro j
  induction j with
  | zero => intro r t h1 _; omega
  | succ j ih =>
    intro r t _ hsum
    by_cases hj : j = 0
    · subst hj
      have hex := failCycle_exhaust cfg hurl data hdata r (by omega) [] t
        (by simpa using hfit)
      constructor
      · show iterFail cfg 0 (failCycle cfg _) = _
        rw [hex]
        simp [iterFail]
      · show (failCycle cfg _).timer :: failDelays cfg 0 (failCycle cfg _) = _
        rw [hex]
        rfl
    · obtain ⟨k, rfl⟩ : ∃ k, j = k + 1 := ⟨j - 1, by omega⟩
      have hr : r + 1 < cfg.retryCount := by omega
      have hstep := failCycle_retry cfg hurl data hdata r hr [] t
      have ihh := ih (r + 1) (some (min (cfg.delay * 2 ^ (r + 1)) 60000))
        (by omega) (by omega)
      constructor
      · show iterFail cfg (k + 1) (failCycle cfg _) = _
        rw [hstep]
        exact ihh.1
      · show (failCycle cfg _).timer
            :: failDelays cfg (k + 1) (failCycle cfg _) = _
        rw [hstep, ihh.2]
        simp only [Nat.add_sub_cancel, List.range_succ_eq_map, List.map_cons,
          List.map_map, List.cons_append, Nat.add_zero]
        congr 1
        congr 1
        rw [List.map_eq_map_iff]
        intro i hi
        simp only [Function.comp]
        have e : r + 1 + 1 + i = r + 1 + (i + 1) := by omega
        rw [e]

theorem iterFail_partial (cfg : Config) (hurl : cfg.urlOk = true)
    (data : List Nat) (hdata : data ≠ []) :
    ∀ (j r : Nat) (t : Option Nat), r + j < cfg.retryCount →
      ∃ t2, iterFail cfg j ⟨data, false, r, [], [], t⟩
        = ⟨data, false, r + j, [], [], t2⟩ := by
  intro j
  induction j with
  | zero => intro r t _; exact ⟨t, rfl⟩
  | succ j ih =>
    intro r t hlt
    have hr : r + 1 < cfg.retryCount := by omega
    have hstep := failCycle_retry cfg hurl data hdata r hr [] t
    have hiter : iterFail cfg (j + 1) ⟨data, false, r, [], [], t⟩
        = iterFail cfg j (failCycle cfg ⟨data, false, r, [], [], t⟩) := rfl
    rw [hiter, hstep]
    obtain ⟨t2, h2⟩ := ih (r + 1) (some (min (cfg.delay * 2 ^ (r + 1)) 60000))
      (by omega)
    refine ⟨t2, ?_⟩
    rw [h2]
    have e : r + 1 + j = r + (j + 1) := by omega
    rw [e]

theorem takeFlight_spec (p : Flight → Bool) :
    ∀ (l : List Flight) (f : Flight) (rest : List Flight),
      takeFlight p l = some (f, rest) →
      p f = true ∧
        ∀ q : Flight → Bool,
          (l.filter q).length = (rest.filter q).length + (if q f then 1 else 0) := by
  intro l
  induction l with
  | nil => intro f rest hf; simp [takeFlight] at hf
  | cons g gs ih =>
    intro f rest hf
    by_cases hg : p g = true
    · rw [takeFlight, if_pos hg] at hf
      simp only [Option.some.injEq, Prod.mk.injEq] at hf
      obtain ⟨rfl, rfl⟩ := hf
      refine ⟨hg, fun q => ?_⟩
      by_cases hq : q g = true <;> simp [List.filter_cons, hq]
    · rw [takeFlight, if_neg hg] at hf
      cases hrec : takeFlight p gs with
      | none => rw [hrec] at hf; exact absurd hf (by simp)
      | some pr =>
        obtain ⟨g1, rest1⟩ := pr
        rw [hrec] at hf
        simp only [Option.some.injEq, Prod.mk.injEq] at hf
        obtain ⟨rfl, rfl⟩ := hf
        obtain ⟨hpf, hcount⟩ := ih g1 rest1 hrec
        refine ⟨hpf, fun q => ?_⟩
        by_cases hq : q g = true
        all_goals simp [List.filter_cons, hq, hcount q]
        all_goals omega

theorem flushHandler_frame (cfg : Config) (data : List Nat) (ok : Bool) (s : Sender) :
    (flushHandler cfg data ok s).sending = false ∧
      (flushHandler cfg data ok s).flights = s.flights := by
  simp only [flushHandler, addToOfflineQueue]
  split
  · exact ⟨rfl, rfl⟩
  · split
    · exact ⟨rfl, rfl⟩
    · exact ⟨rfl, rfl⟩

theorem flushCount_flushStart (cfg : Config) (online : Bool) (s : Sender)
    (h : flushCount s = (if s.sending then 1 else 0)) :
    flushCount (flushStart cfg online s)
      = (if (flushStart cfg online s).sending then 1 else 0) := by
  simp only [flushStart]
  split
  · exact h
  · split
    · next hs => simpa [hs] using h
    · next hs =>
      have hs0 : s.sending = false := by
        cases hns : s.sending
        · rfl
        · exact absurd hns hs
      rw [hs0] at h
      simp only [Bool.false_eq_true, if_false] at h
      have hall : ∀ a ∈ s.flights, a.isFlush = false := by
        intro a ha
        have hnil : s.flights.filter (fun f => f.isFlush) = [] :=
          List.length_eq_zero.mp h
        have hmem := List.filter_eq_nil_iff.mp hnil a ha
        simpa using hmem
      split
      · simp only [flushCount, List.filter_append]
        simp
        exact hall
      · split
        · simp only [flushCount, addToOfflineQueue, List.filter_append]
          simp
          exact hall
        · simp only [flushCount, List.filter_append]
          simp
          exact hall

theorem flushCount_flushSettle (cfg : Config) (ok : Bool) (s : Sender)
    (h : flushCount s = (if s.sending then 1 else 0)) :
    flushCount (flushSettle cfg ok s)
      = (if (flushSettle cfg ok s).sending then 1 else 0) := by
  cases htf : takeFlight (fun f => f.isFlush) s.flights with
  | none =>
    have hred : flushSettle cfg ok s = s := by
      unfold flushSettle; rw [htf]
    rw [hred]; exact h
  | some pr =>
    obtain ⟨f, rest⟩ := pr
    have hred : flushSettle cfg ok s
        = flushHandler cfg f.data (ok && !f.forcedFail) { s with flights := rest } := by
      unfold flushSettle; rw [htf]
    obtain ⟨hpf, hcnt⟩ := takeFlight_spec _ s.flights f rest htf
    have hc := hcnt (fun f => f.isFlush)
    rw [if_pos hpf] at hc
    have hrest : (rest.filter (fun f => f.isFlush)).length = 0 := by
      have hfc : flushCount s = (rest.filter (fun f => f.isFlush)).length + 1 := hc
      cases hs : s.sending
      · rw [hs] at h
        simp only [Bool.false_eq_true, if_false] at h
        rw [hfc] at h
        omega
      · rw [hs] at h
        simp only [if_true] at h
        rw [hfc] at h
        omega
    obtain ⟨hsend, hfl⟩ :=
      flushHandler_frame cfg f.data (ok && !f.forcedFail) { s with flights := rest }
    rw [hred, hsend]
    simp only [Bool.false_eq_true, if_false]
    show ((flushHandler cfg f.data (ok && !f.forcedFail)
        { s with flights := rest }).flights.filter (fun f => f.isFlush)).length = 0
    rw [hfl]
    exact hrest

theorem flushCount_drainStart (cfg : Config) (online : Bool) (s : Sender) :
    flushCount (drainStart cfg online s) = flushCount s ∧
      (drainStart cfg online s).sending = s.sending := by
  simp only [drainStart]
  split
  · exact ⟨rfl, rfl⟩
  · split
    · exact ⟨rfl, rfl⟩
    · split
      · constructor
        · simp [flushCount, List.filter_append]
        · rfl
      · constructor
        · simp [flushCount, List.filter_append]
        · rfl

theorem flushCount_drainSettle (cfg : Config) (ok : Bool) (s : Sender) :
    flushCount (drainSettle cfg ok s) = flushCount s ∧
      (drainSettle cfg ok s).sending = s.sending := by
  cases htf : takeFlight (fun f => !f.isFlush) s.flights with
  | none =>
    have hred : drainSettle cfg ok s = s := by
      unfold drainSettle; rw [htf]
    rw [hred]; exact ⟨rfl, rfl⟩
  | some pr =>
    obtain ⟨f, rest⟩ := pr
    have hred : drainSettle cfg ok s
        = if ok && !f.forcedFail then { s with flights := rest }
          else addToOfflineQueue cfg f.data { s with flights := rest } := by
      unfold drainSettle; rw [htf]
    obtain ⟨hpf, hcnt⟩ := takeFlight_spec _ s.flights f rest htf
    have hnf : f.isFlush = false := by
      cases hx : f.isFlush
      · rfl
      · rw [hx] at hpf; exact absurd hpf (by simp)
    have hc := hcnt (fun f => f.isFlush)
    rw [if_neg (by simp [hnf])] at hc
    rw [Nat.add_zero] at hc
    rw [hred]
    split
    · exact ⟨hc.symm, rfl⟩
    · constructor
      · show ((addToOfflineQueue cfg f.data { s with flights := rest }).flights.filter
            (fun f => f.isFlush)).length = flushCount s
        exact hc.symm
      · rfl

theorem sendingInv (cfg : Config) :
    ∀ s : Sender, Reachable cfg s → flushCount s = (if s.sending then 1 else 0) := by
  intro s h
  induction h with
  | init => rfl
  | @add online r s hr ih =>
    have hred : addRecord cfg online r s
        = if cfg.batchSize ≤ (s.queue ++ [r]).length
            then flushStart cfg online { s with queue := s.queue ++ [r] }
            else { s with queue := s.queue ++ [r] } := rfl
    rw [hred]
    by_cases hb : cfg.batchSize ≤ (s.queue ++ [r]).length
    · rw [if_pos hb]
      exact flushCount_flushStart cfg online _ ih
    · rw [if_neg hb]
      exact ih
  | flush online hr ih => exact flushCount_flushStart cfg online _ ih
  | settleFlush ok hr ih => exact flushCount_flushSettle cfg ok _ ih
  | drain online hr ih =>
    obtain ⟨h1, h2⟩ := flushCount_drainStart cfg online _
    rw [h1, h2]
    exact ih
  | settleDrain ok hr ih =>
    obtain ⟨h1, h2⟩ := flushCount_drainSettle cfg ok _
    rw [h1, h2]
    exact ih
  | timerFire online ht hr ih => exact flushCount_flushStart cfg online _ ih

/-! ## Claim theorems -/

theorem flushStart_clears (cfg : Config) (online : Bool) (s : Sender)
    (hq : ¬ s.queue = []) (hs : s.sending = false) :
    (flushStart cfg online s).queue = [] ∧ (flushStart cfg online s).sending = true := by
  simp only [flushStart]
  rw [if_neg hq, if_neg (by simp [hs])]
  split
  · exact ⟨rfl, rfl⟩
  · split
    · exact ⟨rfl, rfl⟩
    · exact ⟨rfl, rfl⟩

/-- Claim C1 counterexample: Scenario B concretely (`maxRetries = 2`,
`baseDelay = 5000`, record 7 admitted, every attempt failing).  The timer
delays observed are 10000 ms and then the default 5000 ms — not 10000 then
20000 — and the batch is in the offline queue already after the second
failed attempt, i.e. after a single backoff delay. -/
theorem c1_counterexample :
    failDelays cfgA 2 (addRecord cfgA true 7 (initSender cfgA))
        = [some 10000, some 5000] ∧
    failDelays cfgA 2 (addRecord cfgA true 7 (initSender cfgA))
        ≠ [some 10000, some 20000] ∧
    (iterFail cfgA 1 (addRecord cfgA true 7 (initSender cfgA))).offlineQueue = [] ∧
    (iterFail cfgA 2 (addRecord cfgA true 7 (initSender cfgA))).offlineQueue = [7] := by
  decide

/-- Claim C1 (amended): with a configured URL and the device online, a batch
whose every delivery attempt fails is retried exactly `maxRetries - 1` times
(the code increments `retryCount` before comparing it with the budget), the
k-th retry being scheduled after `min(baseDelay * 2^k, 60000)` ms; the
`maxRetries`-th consecutive failure moves the batch to the offline queue,
resets `retryCount`, and re-arms the default timer.  With `maxRetries = 2`
and `baseDelay = 5000` that is one 10000 ms delay, then the Offline Store. -/
theorem c1_amended (cfg : Config) (data : List Nat) (t : Option Nat)
    (hurl : cfg.urlOk = true) (hm : 1 ≤ cfg.retryCount) (hdata : data ≠ [])
    (hfit : data.length ≤ cfg.maxOffline) :
    iterFail cfg cfg.retryCount ⟨data, false, 0, [], [], t⟩
        = ⟨[], false, 0, data, [], some cfg.delay⟩ ∧
    failDelays cfg cfg.retryCount ⟨data, false, 0, [], [], t⟩
        = (List.range (cfg.retryCount - 1)).map
            (fun k => some (min (cfg.delay * 2 ^ (k + 1)) 60000))
          ++ [some cfg.delay] ∧
    ∀ j, j < cfg.retryCount →
      (iterFail cfg j ⟨data, false, 0, [], [], t⟩).offlineQueue = [] := by
  obtain ⟨h1, h2⟩ := failRun_spec cfg hurl data hdata hfit cfg.retryCount 0 t hm
    (by omega)
  refine ⟨h1, ?_, ?_⟩
  · rw [h2]
    congr 1
    rw [List.map_eq_map_iff]
    intro i hi
    have e : 0 + 1 + i = i + 1 := by omega
    rw [e]
  · intro j hj
    obtain ⟨t2, hpart⟩ := iterFail_partial cfg hurl data hdata j 0 t (by omega)
    rw [hpart]

/-- Claim C1 witness: the amended claim instantiated at Scenario B
(`cfgA`, batch `[7]`): one retry delay of `min(5000·2^1, 60000) = 10000` ms,
then the batch sits in the offline queue. -/
theorem c1_witness :
    iterFail cfgA cfgA.retryCount ⟨[7], false, 0, [], [], some 5000⟩
        = ⟨[], false, 0, [7], [], some cfgA.delay⟩ ∧
    failDelays cfgA cfgA.retryCount ⟨[7], false, 0, [], [], some 5000⟩
        = (List.range (cfgA.retryCount - 1)).map
            (fun k => some (min (cfgA.delay * 2 ^ (k + 1)) 60000))
          ++ [some cfgA.delay] ∧
    ∀ j, j < cfgA.retryCount →
      (iterFail cfgA j ⟨[7], false, 0, [], [], some 5000⟩).offlineQueue = [] :=
  c1_amended cfgA [7] (some 5000) rfl (by decide) (by decide) (by decide)

/-- Claim C2 (code-bug evaluation): device offline at flush time
(`batchSize = 1`, retry budget 3, record 1).  `send` adds the batch to the
offline queue and rejects; the rejected promise then runs the generic
failure handler, which increments `retryCount` to 1, re-queues the same
record into the in-memory queue, and arms the 10000 ms backoff timer —
a retry is consumed and the records are re-queued, contrary to the claim. -/
theorem c2_offline_flush_eval :
    dupState.offlineQueue = [1] ∧ dupState.queue = [1] ∧
      dupState.retryCount = 1 ∧ dupState.timer = some 10000 := by
  decide

/-- Claim C3 (code-bug evaluation): after an offline flush of record 1 and
the settlement of its rejected send, the state is reachable and record 1 is
simultaneously a member of the in-memory queue and of the offline queue —
the same record sits in two batches at once. -/
theorem c3_duplication_eval :
    Reachable cfgB dupState ∧ 1 ∈ dupState.queue ∧ 1 ∈ dupState.offlineQueue := by
  refine ⟨?_, by decide, by decide⟩
  exact Reachable.settleFlush false (Reachable.add false 1 Reachable.init)

/-- Claim C4 counterexample: a reachable state with two sends in flight at
once — one flush-originated (record 2) and one drain-originated (record 1),
because `sendOfflineQueue` neither checks nor sets `sending`. -/
theorem c4_counterexample :
    Reachable cfgC twoInFlight ∧ twoInFlight.flights.length = 2 ∧
      (twoInFlight.flights.filter (fun f => f.isFlush)).length = 1 ∧
      (twoInFlight.flights.filter (fun f => !f.isFlush)).length = 1 := by
  refine ⟨?_, by decide, by decide, by decide⟩
  exact Reachable.drain true (Reachable.add true 2
    (Reachable.settleFlush false (Reachable.add true 1 Reachable.init)))

/-- Claim C4 (amended): single-flight holds for flush-originated sends only:
in every reachable sender state at most one flush-originated send is in
flight, and a `flush()` that begins while `sending` is true is a no-op; a
drain-originated send from `sendOfflineQueue` may however fly concurrently
with it (see the counterexample). -/
theorem c4_amended :
    (∀ (cfg : Config) (s : Sender), Reachable cfg s → flushCount s ≤ 1) ∧
    (∀ (cfg : Config) (online : Bool) (s : Sender), s.sending = true →
      flushStart cfg online s = s) := by
  constructor
  · intro cfg s h
    rw [sendingInv cfg s h]
    split
    · omega
    · omega
  · intro cfg online s h
    unfold flushStart
    by_cases hq : s.queue = []
    · rw [if_pos hq]
    · rw [if_neg hq, if_pos h]

/-- Claim C4 witness: the amended claim applied at the initial state (via
`Reachable.init`) and at a concrete sender with `sending = true`. -/
theorem c4_witness :
    flushCount (initSender cfgC) ≤ 1 ∧
      flushStart cfgC true sendingState = sendingState :=
  ⟨c4_amended.1 cfgC (initSender cfgC) Reachable.init,
   c4_amended.2 cfgC true sendingState rfl⟩

/-- Claim C5: for every sequence of pushes into the offline queue (capacity
positive), the store afterwards holds exactly the last `maxOfflineSize`
records of everything pushed, in FIFO order of arrival, and its size never
exceeds `maxOfflineSize`; `addToOfflineQueue` never signals an error (it is
a total function).  Scenario C: capacity 5, records 0…6 pushed one at a
time, leaves `[2, 3, 4, 5, 6]`. -/
theorem c5_offline_store_fifo :
    (∀ (cfg : Config) (pushes : List (List Nat)), 0 < cfg.maxOffline →
      (pushes.foldl (fun s d => addToOfflineQueue cfg d s) (initSender cfg)).offlineQueue
          = lastN cfg.maxOffline pushes.flatten ∧
      (pushes.foldl (fun s d =>
          addToOfflineQueue cfg d s) (initSender cfg)).offlineQueue.length
          ≤ cfg.maxOffline) ∧
    (pushes7.foldl (fun s d => addToOfflineQueue cfgF d s) (initSender cfgF)).offlineQueue
        = [2, 3, 4, 5, 6] := by
  constructor
  · intro cfg pushes h
    have hfold := offline_foldl cfg h pushes (initSender cfg) (by simp [initSender])
    have hnil : (initSender cfg).offlineQueue ++ pushes.flatten = pushes.flatten := by
      simp [initSender]
    rw [hnil] at hfold
    exact ⟨hfold, by rw [hfold]; exact lastN_length_le _ _⟩
  · decide

/-- Claim C5 witness: the general statement instantiated at Scenario C
(capacity 5, seven singleton pushes). -/
theorem c5_witness :
    0 < cfgF.maxOffline ∧
    ((pushes7.foldl (fun s d => addToOfflineQueue cfgF d s) (initSender cfgF)).offlineQueue
        = lastN cfgF.maxOffline pushes7.flatten ∧
      (pushes7.foldl (fun s d =>
          addToOfflineQueue cfgF d s) (initSender cfgF)).offlineQueue.length
        ≤ cfgF.maxOffline) :=
  ⟨by decide, c5_offline_store_fifo.1 cfgF pushes7 (by decide)⟩

/-- Claim C6: over `n` occurrences of one fingerprint the dedup cache
reports exactly the first occurrence (count 1) and every occurrence whose
running count is a multiple of 10; for 25 identical repeats that is exactly
three emissions, with counts 1, 10 and 20. -/
theorem c6_dedup_emissions :
    (∀ (fp n : Nat),
      (runRepeats fp n).reported = (emittedCounts n).map (fun c => (fp, c))) ∧
    (runRepeats 9 25).reported = [(9, 1), (9, 10), (9, 20)] := by
  constructor
  · intro fp n
    cases n with
    | zero => rfl
    | succ m => exact (runRepeats_spec fp m).2
  · decide

/-- Claim C7 counterexample: `batchSize = 2`; records 1–4 admitted in one
synchronous run.  The second add flushes (send in flight); the fourth add
again brings the queue to `batchSize`, but the triggered flush is a no-op
because `sending` is still true, so the queue stays `[3, 4]` — not empty. -/
theorem c7_counterexample :
    Reachable cfgD c7state ∧ c7state.queue = [3, 4] ∧
      c7state.queue.length = cfgD.batchSize ∧ c7state.sending = true := by
  refine ⟨?_, by decide, by decide, by decide⟩
  exact Reachable.add true 4 (Reachable.add true 3
    (Reachable.add true 2 (Reachable.add true 1 Reachable.init)))

/-- Claim C7 (amended): provided no delivery attempt is in flight
(`sending = false`), an `add` that brings the queue size to `batchSize`
synchronously triggers a flush which snapshots the batch, leaves the queue
empty, and marks the sender as sending — in every connectivity environment. -/
theorem c7_amended (cfg : Config) (online : Bool) (r : Nat) (s : Sender)
    (hs : s.sending = false) (hb : cfg.batchSize ≤ s.queue.length + 1) :
    (addRecord cfg online r s).queue = [] ∧
      (addRecord cfg online r s).sending = true := by
  have hred : addRecord cfg online r s
      = flushStart cfg online { s with queue := s.queue ++ [r] } := by
    unfold addRecord
    rw [if_pos (by simp only [List.length_append, List.length_cons,
      List.length_nil]; omega)]
  rw [hred]
  exact flushStart_clears cfg online _ (by simp) hs

/-- Claim C7 witness: the amended claim at `batchSize = 2`, a quiescent
sender holding one record, and a second record being added. -/
theorem c7_witness :
    cfgD.batchSize ≤ c7wState.queue.length + 1 ∧
    ((addRecord cfgD true 9 c7wState).queue = [] ∧
      (addRecord cfgD true 9 c7wState).sending = true) :=
  ⟨by decide, c7_amended cfgD true 9 c7wState rfl (by decide)⟩

/-- Claim C8 counterexample: with no endpoint URL configured, flushed
records are neither dropped nor left alone: in `BeaconSender` the rejected
send follows the ordinary failure path, so with retry budget 1 the record
ends up persisted in the offline queue, and with budget 3 it is re-queued
for retry with `retryCount` incremented — contradicting `silently dropped,
not retried and not persisted`. -/
theorem c8_counterexample :
    Reachable cfgE noUrlState ∧ noUrlState.offlineQueue = [4] ∧
      Reachable cfgE3 noUrlRetryState ∧ noUrlRetryState.queue = [4] ∧
      noUrlRetryState.retryCount = 1 := by
  refine ⟨?_, by decide, ?_, by decide, by decide⟩
  · exact Reachable.settleFlush false (Reachable.add true 4 Reachable.init)
  · exact Reachable.settleFlush false (Reachable.add true 4 Reachable.init)

/-- Claim C8 (amended): a missing endpoint URL never throws, but the two
senders handle it differently.  `createBeaconSender.send` drops the record
without queuing it and emits a debug warning on every call (not once).
`BeaconSender.flush` rejects the send, leaving the batch to the ordinary
retry/offline failure path as an already-rejected in-flight promise. -/
theorem c8_amended :
    (∀ (cfg : CoreConfig) (r : Nat) (s : CoreSender), cfg.urlOk = false →
      coreSend cfg r s
        = (if cfg.debug then { s with warns := s.warns + 1 } else s)) ∧
    (∀ (cfg : Config) (online : Bool) (s : Sender), cfg.urlOk = false →
      ¬ s.queue = [] → s.sending = false →
      flushStart cfg online s
        = { s with sending := true, timer := none, queue := [],
                   flights := s.flights ++ [⟨s.queue, true, true⟩] }) := by
  constructor
  · intro cfg r s h
    unfold coreSend
    rw [if_pos h]
  · intro cfg online s hurl hq hs
    simp only [flushStart]
    rw [if_neg hq, if_neg (by simp [hs]), if_pos hurl]

/-- Claim C8 witness: the amended claim at a debug-enabled core sender and
at a concrete `BeaconSender` state holding record 4. -/
theorem c8_witness :
    coreSend ⟨false, 10, true⟩ 5 coreInit
        = { coreInit with warns := coreInit.warns + 1 } ∧
    flushStart cfgE true ⟨[4], false, 0, [], [], some 5000⟩
        = ⟨[], true, 0, [], [⟨[4], true, true⟩], none⟩ :=
  ⟨c8_amended.1 ⟨false, 10, true⟩ 5 coreInit rfl,
   c8_amended.2 cfgE true ⟨[4], false, 0, [], [], some 5000⟩ rfl (by decide) rfl⟩

/-- Claim C9: `shouldSample` always rejects rates at most 0 and always
admits rates at least 1, independently of the random draw; it is a pure
function of its arguments, so neither case has side effects. -/
theorem c9_sampling_gate (rand rate : ℚ) :
    (rate ≤ 0 → shouldSample rand rate = false) ∧
      (1 ≤ rate → shouldSample rand rate = true) := by
  constructor
  · intro h
    unfold shouldSample
    rw [if_neg (by intro hc; linarith), if_pos h]
  · intro h
    unfold shouldSample
    rw [if_pos h]

/-- Claim C9 witness: a negative rate rejects and a rate above 1 admits,
at the concrete draw 1/2. -/
theorem c9_witness :
    shouldSample (1 / 2) (-1) = false ∧ shouldSample (1 / 2) 2 = true :=
  ⟨(c9_sampling_gate (1 / 2) (-1)).1 (by norm_num),
   (c9_sampling_gate (1 / 2) 2).2 (by norm_num)⟩

/-- Claim C10: the pending-event queue of `createBeaconSender` is the
bounded `Cache(1000)`: over any sequence of `send` calls its size never
exceeds 1000, and a `set` into a full cache silently deletes the
first-inserted (oldest) entry before appending the new one, so a pending
event can be lost before any flush without an error. -/
theorem c10_pending_cache_bound :
    (∀ (cfg : CoreConfig) (rs : List Nat),
      (rs.foldl (fun s r => coreSend cfg r s) coreInit).cache.entries.length ≤ 1000) ∧
    (∀ (c : Cache) (k v : Nat), c.entries.length = c.maxSize → 0 < c.maxSize →
      (∀ e ∈ c.entries.tail, e.1 ≠ k) →
      (c.set k v).entries = c.entries.tail ++ [(k, v)]) := by
  constructor
  · intro cfg rs
    have hinv := foldl_inv
      (fun s : CoreSender =>
        s.cache.entries.length ≤ s.cache.maxSize ∧ s.cache.maxSize = 1000)
      (fun s r => coreSend cfg r s)
      (fun s r hp => coreSend_cache_bound cfg s r hp)
      rs coreInit ⟨by decide, by decide⟩
    rw [← hinv.2]
    exact hinv.1
  · intro c k v hfull hpos hfresh
    have hge : c.maxSize ≤ c.entries.length := by omega
    have hany : (c.entries.tail.any (fun e => e.1 = k)) = false := by
      rw [List.any_eq_false]
      intro e he
      simpa using hfresh e he
    simp only [Cache.set]
    rw [if_pos hge, if_neg (by rw [hany]; simp)]

/-- Claim C10 witness: the bound applied to a concrete send sequence, and
the eviction equation applied to a concrete full one-slot cache. -/
theorem c10_witness :
    (([5, 6, 7] : List Nat).foldl (fun s r => coreSend ⟨true, 2000, false⟩ r s)
        coreInit).cache.entries.length ≤ 1000 ∧
    ((⟨[(0, 0)], 1⟩ : Cache).set 3 9).entries = [(3, 9)] :=
  ⟨c10_pending_cache_bound.1 ⟨true, 2000, false⟩ [5, 6, 7],
   c10_pending_cache_bound.2 ⟨[(0, 0)], 1⟩ 3 9 rfl (by decide)
     (by intro e he; simp at he)⟩

end Tracker